import Mathlib

/-!
# Verification of the RetroUI terminal toolkit core

A shallow embedding of the pure parts of `retroui.terminal` (tixels, views,
panels, the responder chain, and the `ScreenManager` encoder/decoder and
scheduler loop), together with theorems settling the specification claims.

Python strings are modelled as `List Char` (`PyStr`), Python `int` as `Int`
(with `Nat` where the source guarantees non-negativity), Python `None` as
`Option`, and Python exceptions as `Except`/explicit outcome types.
-/

namespace RetroUI

/-- A Python `str`, modelled as its list of characters. -/
abbrev PyStr := List Char

/-! ## minmax.py -/

/-- `minmax(n, lo, hi)` from `minmax.py`: `max(lo, min(hi, n))`. -/
def minmax (n lo hi : Int) : Int :=
  max lo (min hi n)

/-! ## color.py -/

/-- A `Color` from `color.py`.  The constructor clamps each channel to
`[0, 255]` via `minmax`; `Color.make` performs exactly that clamping. -/
structure Color where
  red : Int
  green : Int
  blue : Int
  alpha : Int
  deriving DecidableEq, Repr

/-- `Color.__init__` from `color.py`: clamp every channel with
`minmax(·, 0, 255)`. -/
def Color.make (r g b a : Int) : Color :=
  ⟨minmax r 0 255, minmax g 0 255, minmax b 0 255, minmax a 0 255⟩

/-- `Black = Color(0, 0, 0, 255)` from `color.py`. -/
def Black : Color := Color.make 0 0 0 255

/-- `Grey = Color(127, 127, 127, 255)` from `color.py`. -/
def Grey : Color := Color.make 127 127 127 255

/-- `White = Color(255, 255, 255, 255)` from `color.py`. -/
def White : Color := Color.make 255 255 255 255

/-! ## tixel.py -/

/-- A `Tixel` from `tixel.py`: a character with optional foreground and
background colors. -/
structure Tixel where
  character : PyStr
  foreground_color : Option Color
  background_color : Option Color
  deriving DecidableEq, Repr

/-- `Tixel.__init__` from `tixel.py`: the stored character is `ch[0]` when
`len(ch) >= 1` and `' '` otherwise (`ch[0]` on a Python string is the
one-character string `ch.take 1`). -/
def Tixel.make (ch : PyStr) (fg bg : Option Color) : Tixel :=
  { character := if ch.length ≥ 1 then ch.take 1 else [' ']
    foreground_color := fg
    background_color := bg }

/-! ## screen.py: key decoding tables -/

/-- `ESCAPE_SEQUENCES` from `screen.py`, as an association list from raw byte
sequences to key-code names. -/
def escapeSequences : List (PyStr × PyStr) :=
  [ ("\x1b[1~".toList, "Home".toList)
  , ("\x1b[2~".toList, "Insert".toList)
  , ("\x1b[3~".toList, "Delete".toList)
  , ("\x1b[4~".toList, "End".toList)
  , ("\x1b[5~".toList, "PageUp".toList)
  , ("\x1b[6~".toList, "PageDown".toList)
  , ("\x1b[7~".toList, "Home".toList)
  , ("\x1b[8~".toList, "End".toList)
  , ("\x1b[10~".toList, "F0".toList)
  , ("\x1b[11~".toList, "F1".toList)
  , ("\x1b[12~".toList, "F2".toList)
  , ("\x1b[13~".toList, "F3".toList)
  , ("\x1b[14~".toList, "F4".toList)
  , ("\x1b[15~".toList, "F5".toList)
  , ("\x1b[17~".toList, "F6".toList)
  , ("\x1b[18~".toList, "F7".toList)
  , ("\x1b[19~".toList, "F8".toList)
  , ("\x1b[20~".toList, "F9".toList)
  , ("\x1b[21~".toList, "F10".toList)
  , ("\x1b[23~".toList, "F11".toList)
  , ("\x1b[24~".toList, "F12".toList)
  , ("\x1b[25~".toList, "F13".toList)
  , ("\x1b[26~".toList, "F14".toList)
  , ("\x1b[28~".toList, "F15".toList)
  , ("\x1b[29~".toList, "F16".toList)
  , ("\x1b[31~".toList, "F17".toList)
  , ("\x1b[32~".toList, "F18".toList)
  , ("\x1b[33~".toList, "F19".toList)
  , ("\x1b[34~".toList, "F20".toList)
  , ("\x1b[A".toList, "Up".toList)
  , ("\x1b[B".toList, "Down".toList)
  , ("\x1b[C".toList, "Right".toList)
  , ("\x1b[D".toList, "Left".toList)
  , ("\x1b[F".toList, "End".toList)
  , ("\x1b[H".toList, "Home".toList)
  , ("\x1b[1P".toList, "F1".toList)
  , ("\x1b[1Q".toList, "F2".toList)
  , ("\x1b[1R".toList, "F3".toList)
  , ("\x1b[1S".toList, "F4".toList)
  ]

/-- `MODIFIERS` from `screen.py`, as an association list from 5-byte CSI
modifier strings to modifier name lists. -/
def modifiersTable : List (PyStr × List PyStr) :=
  [ ("\x1b[1;2".toList, ["Shift".toList])
  , ("\x1b[1;3".toList, ["Alt".toList])
  , ("\x1b[1;4".toList, ["Shift".toList, "Alt".toList])
  , ("\x1b[1;5".toList, ["Ctrl".toList])
  , ("\x1b[1;7".toList, ["Ctrl".toList, "Alt".toList])
  ]

/-- The result of `ScreenManager.getch`: the Python 4-tuple
`(ch, ctrl, alt, shift)`. -/
structure GetchResult where
  ch : PyStr
  ctrl : Bool
  alt : Bool
  shift : Bool
  deriving DecidableEq, Repr

/-- `ScreenManager.getch` from `screen.py`, as a pure function of the string
read from standard input.  A one-character read is returned verbatim;
otherwise the whole read is looked up in `ESCAPE_SEQUENCES`; otherwise a
5-byte modifier lookup on `s[:5]` combined with an `ESCAPE_SEQUENCES`
lookup on `'\x1b[' + s[5:]` decodes name plus modifier flags; otherwise the
raw read passes through with all flags `False`. -/
def getch (s : PyStr) : GetchResult :=
  if s.length = 1 then
    ⟨s, false, false, false⟩
  else
    match escapeSequences.lookup s with
    | some ch => ⟨ch, false, false, false⟩
    | none =>
      match modifiersTable.lookup (s.take 5),
            escapeSequences.lookup ("\x1b[".toList ++ s.drop 5) with
      | some mods, some ch =>
        ⟨ch, mods.contains ("Ctrl".toList), mods.contains ("Alt".toList),
          mods.contains ("Shift".toList)⟩
      | some _, none => ⟨s, false, false, false⟩
      | none, _ => ⟨s, false, false, false⟩

/-! ## size.py, point.py -/

/-- A `Size` from `size.py`: width and height, Python integers. -/
structure Size where
  width : Int
  height : Int
  deriving DecidableEq, Repr

/-- A `Point` from `point.py`: x and y coordinates, Python integers. -/
structure Point where
  x : Int
  y : Int
  deriving DecidableEq, Repr

/-! ## view.py

`View.set_size` clamps both dimensions to be non-negative (`max(·, 0)`), and
views start at `Size(0, 0)`, so every view's stored size has non-negative
components.  The `fit_to_*` helpers below are only ever applied to such view
sizes; `lst[:n]` is therefore modelled as `List.take n.toNat` (the Python
negative-index slice semantics is unreachable here). -/

/-- The view state from `view.py` that the drawing and sizing methods touch:
the `size` and `origin` slots.  (`application` and `superview` only matter
for responder-chain traversal and are modelled separately.) -/
structure View where
  size : Size
  origin : Point
  deriving DecidableEq, Repr

/-- `View.set_size` from `view.py`: the default `constrain_size` is the
identity, then both dimensions are clamped with `max(·, 0)` and stored
(`size_did_change` is a no-op on the base class). -/
def View.set_size (v : View) (new_size : Size) : View :=
  { v with size := ⟨max new_size.width 0, max new_size.height 0⟩ }

/-- The padding tixel `Tixel(' ', White, Black)` used by the `view.py`
helpers. -/
def blankTixel : Tixel :=
  Tixel.make [' '] (some White) (some Black)

/-- `View.fit_to_width` from `view.py`: pad a short line on the right with
blank tixels, or clip a long one. -/
def fitToWidth (line : List Tixel) (width : Int) : List Tixel :=
  if (line.length : Int) < width then
    line ++ List.replicate (width - line.length).toNat blankTixel
  else
    line.take width.toNat

/-- `View.fit_to_height` from `view.py`: pad short content with empty lines
at the bottom, or clip. -/
def fitToHeight (lines : List (List Tixel)) (height : Int) : List (List Tixel) :=
  if (lines.length : Int) < height then
    lines ++ List.replicate (height - lines.length).toNat []
  else
    lines.take height.toNat

/-- `View.fit_to_size` from `view.py`: fit to height, then fit every line to
width. -/
def fitToSize (lines : List (List Tixel)) (size : Size) : List (List Tixel) :=
  (fitToHeight lines size.height).map (fun line => fitToWidth line size.width)

/-- `View.offset_to_origin` from `view.py`: shift content so that the origin
of the lines is at the point, padding or clipping the top and left edges. -/
def offsetToOrigin (lines : List (List Tixel)) (point : Point) : List (List Tixel) :=
  let hoffset_lines :=
    if point.x ≤ 0 then
      lines.map (fun line => List.replicate (-point.x).toNat blankTixel ++ line)
    else
      lines.map (fun line => line.drop point.x.toNat)
  if point.y ≤ 0 then
    List.replicate (-point.y).toNat [] ++ hoffset_lines
  else
    hoffset_lines.drop point.y.toNat

/-- `View.put_in_bounds` from `view.py`. -/
def putInBounds (lines : List (List Tixel)) (origin : Point) (size : Size) : List (List Tixel) :=
  fitToSize (offsetToOrigin lines origin) size

/-- `View.bound_lines` from `view.py`. -/
def View.bound_lines (v : View) (lines : List (List Tixel)) : List (List Tixel) :=
  putInBounds lines v.origin v.size

/-- `View.draw` from `view.py`: the base class draws all spaces,
`fit_to_size([], size)`. -/
def View.draw (v : View) : List (List Tixel) :=
  fitToSize [] v.size

/-- `FillView.draw` from `fillview.py`: `height * [width * [Tixel(fill_character, White, Black)]]`.
The `fill_character` slot is passed explicitly. -/
def FillView.draw (v : View) (fill_character : PyStr) : List (List Tixel) :=
  List.replicate v.size.height.toNat
    (List.replicate v.size.width.toNat (Tixel.make fill_character (some White) (some Black)))

/-- `EmptyView.draw` from `emptyview.py`.  Python's `int(0.5 * n)` truncates
toward zero, i.e. `Int.tdiv n 2`; Python `n * [x]` with `n < 0` is the empty
list, i.e. `List.replicate n.toNat`. -/
def EmptyView.draw (v : View) : List (List Tixel) :=
  let top_height := Int.tdiv (v.size.height - 1) 2
  let bottom_height := v.size.height - 1 - top_height
  let left_width := Int.tdiv (v.size.width - 5) 2
  let right_width := v.size.width - 5 - left_width
  let lines :=
    List.replicate top_height.toNat (List.replicate v.size.width.toNat blankTixel) ++
    [List.replicate left_width.toNat blankTixel ++
      ("empty".toList.map (fun c => Tixel.make [c] (some White) (some Black))) ++
      List.replicate right_width.toNat blankTixel] ++
    List.replicate bottom_height.toNat (List.replicate v.size.width.toNat blankTixel)
  View.bound_lines v lines

/-! ## event.py, responder.py -/

/-- An `Event` from `event.py`. -/
structure Event where
  key_code : PyStr
  has_ctrl_modifier : Bool
  has_alt_modifier : Bool
  has_shift_modifier : Bool
  deriving DecidableEq, Repr

/-- A `NoResponderException` from `responder.py`: carries the event that fell
off the responder chain. -/
structure NoResponderException where
  event : Event
  deriving DecidableEq, Repr

/-- `Responder.no_responder` from `responder.py`: the default raises
`NoResponderException(event)`. -/
def Responder.no_responder (event : Event) : Except NoResponderException Unit :=
  .error ⟨event⟩

/-- `Application.no_responder` from `application.py`: the override is `pass`,
swallowing the condition. -/
def Application.no_responder (_event : Event) : Except NoResponderException Unit :=
  .ok ()

/-- The `no_responder` method as resolved on a `Panel`.  `Panel` (a direct
subclass of `Responder` in `panel.py`) does not override `no_responder`, so
method lookup resolves to `Responder.no_responder`, which raises. -/
def Panel.no_responder (event : Event) : Except NoResponderException Unit :=
  Responder.no_responder event

/-- `Panel.send_event` from `panel.py`.  The first responder is modelled by
the behavior of its `key_press` method (`none` when no first responder is
set); the `try`/`except NoResponderException` around
`first_responder.key_press(ev)` routes the exception to `self.no_responder`. -/
def Panel.send_event (first_responder : Option (Event → Except NoResponderException Unit))
    (ev : Event) : Except NoResponderException Unit :=
  match first_responder with
  | some key_press =>
    match key_press ev with
    | .ok u => .ok u
    | .error _ => Panel.no_responder ev
  | none => Panel.no_responder ev

/-! ## panel.py: sizing -/

/-- The `Panel` state from `panel.py` that `set_size`/`resize_content_view`
touch: `size`, `title`, `has_border` and `content_view`.  The remaining slots
(location, colors, responder links) are not read or written by these
methods. -/
structure Panel where
  size : Size
  title : Option PyStr
  has_border : Bool
  content_view : Option View
  deriving DecidableEq, Repr

/-- `Panel.resize_content_view` from `panel.py`: subtract one row for a
title, and, when bordered, two columns plus one more row (two more rows when
untitled), then `content_view.set_size`. -/
def Panel.resize_content_view (p : Panel) : Panel :=
  match p.content_view with
  | none => p
  | some cv =>
    let width := p.size.width
    let height := p.size.height
    let height := if p.title.isSome then height - 1 else height
    let width := if p.has_border then width - 2 else width
    let height :=
      if p.has_border then (if p.title.isSome then height - 1 else height - 2) else height
    { p with content_view := some (View.set_size cv ⟨width, height⟩) }

/-- `Panel.set_size` from `panel.py`: store the size, then
`resize_content_view`. -/
def Panel.set_size (p : Panel) (size : Size) : Panel :=
  Panel.resize_content_view { p with size := size }

/-! ## screen.py: output encoding

`ScreenColor` in `screen.py` defines only `__init__` and `__repr__` — no
`__eq__` — so Python's `!=` between two `ScreenColor`s compares *object
identity*, not channel values.  Each `ScreenColor` object is therefore
modelled with an `oid` field standing for its `id()`; two references are the
same object exactly when their `oid`s agree.  Code that constructs a new
`ScreenColor(...)` allocates a fresh `oid` (passed in as the `fresh`
parameter: `fresh`, `fresh + 1`, ... are ids unused by any live object). -/

/-- A `ScreenColor` from `screen.py`, together with its Python object
identity `oid`. -/
structure ScreenColor where
  oid : Nat
  r : Int
  g : Int
  b : Int
  deriving DecidableEq, Repr

/-- Python `a != b` on `ScreenColor`s: with no `__eq__` defined, this is
identity comparison. -/
def ScreenColor.pyNe (a b : ScreenColor) : Bool :=
  a.oid != b.oid

/-- A `ScreenTixel` from `screen.py`. -/
structure ScreenTixel where
  character : PyStr
  foreground : Option ScreenColor
  background : Option ScreenColor
  deriving DecidableEq, Repr

/-- The decimal rendering of a Python integer, as used by `str.format`. -/
def intStr (n : Int) : PyStr :=
  (toString n).toList

/-- The truecolor foreground SGR code
`'\x1b[38;2;{};{};{}m'.format(r, g, b)` from `screen.py`. -/
def fgColorCode (c : ScreenColor) : PyStr :=
  "\x1b[38;2;".toList ++ intStr c.r ++ ";".toList ++ intStr c.g ++
    ";".toList ++ intStr c.b ++ "m".toList

/-- The truecolor background SGR code
`'\x1b[48;2;{};{};{}m'.format(r, g, b)` from `screen.py`. -/
def bgColorCode (c : ScreenColor) : PyStr :=
  "\x1b[48;2;".toList ++ intStr c.r ++ ";".toList ++ intStr c.g ++
    ";".toList ++ intStr c.b ++ "m".toList

/-- The loop body of `ScreenManager.line_to_terminal_line` from `screen.py`:
walk the enumerated tixels carrying the current `fg_color`/`bg_color`
references.  At `i == 0` the colors are (re)initialized — a `None`
foreground allocates `ScreenColor(255, 255, 255)` and a `None` background
allocates `ScreenColor(0, 0, 0)` — and both codes are emitted.  At `i > 0` a
code is emitted only when the cell's color is a non-`None` *different
object* (`!=` is identity). -/
def lineToTerminalLineGo (fresh : Nat) :
    List ScreenTixel → Nat → ScreenColor → ScreenColor → PyStr
  | [], _, _, _ => []
  | tx :: rest, i, fg_color, bg_color =>
    if i = 0 then
      let fg_color' :=
        match tx.foreground with
        | none => (⟨fresh + 2, 255, 255, 255⟩ : ScreenColor)
        | some fg => fg
      let bg_color' :=
        match tx.background with
        | none => (⟨fresh + 3, 0, 0, 0⟩ : ScreenColor)
        | some bg => bg
      fgColorCode fg_color' ++ bgColorCode bg_color' ++ tx.character ++
        lineToTerminalLineGo fresh rest (i + 1) fg_color' bg_color'
    else
      let fgStep :=
        match tx.foreground with
        | some fg => if fg.pyNe fg_color then (fgColorCode fg, fg) else ([], fg_color)
        | none => ([], fg_color)
      let bgStep :=
        match tx.background with
        | some bg => if bg.pyNe bg_color then (bgColorCode bg, bg) else ([], bg_color)
        | none => ([], bg_color)
      fgStep.1 ++ bgStep.1 ++ tx.character ++
        lineToTerminalLineGo fresh rest (i + 1) fgStep.2 bgStep.2

/-- `ScreenManager.line_to_terminal_line` from `screen.py`.  The two local
variables start as freshly allocated `ScreenColor(0, 0, 0)` objects (ids
`fresh` and `fresh + 1`); the line ends with the SGR reset. -/
def lineToTerminalLine (line : List ScreenTixel) (fresh : Nat) : PyStr :=
  lineToTerminalLineGo fresh line 0 ⟨fresh, 0, 0, 0⟩ ⟨fresh + 1, 0, 0, 0⟩ ++
    "\x1b[0m".toList

/-- The decimal rendering of a natural number. -/
def natStr (n : Nat) : PyStr :=
  (toString n).toList

/-- The `write_cmd` accumulation loop of `ScreenManager.draw` from
`screen.py`: `for y, line in enumerate(new_terminal_lines): write_cmd +=
'\x1b[{y};0H{s}'.format(y=y + 1, s=line)`.  The first argument is the
running `enumerate` index. -/
def drawWriteCmdGo : Nat → List PyStr → PyStr
  | _, [] => []
  | y, line :: rest =>
    "\x1b[".toList ++ natStr (y + 1) ++ ";0H".toList ++ line ++
      drawWriteCmdGo (y + 1) rest

/-- The full `write_cmd` string that `ScreenManager.draw` writes for a frame,
as a function of the terminal lines computed for the (size-enforced) new
contents. -/
def drawWriteCmd (new_terminal_lines : List PyStr) : PyStr :=
  drawWriteCmdGo 0 new_terminal_lines

/-! ## screen.py: the scheduler loop of `run_app`

`run_app` is modelled as a function of the queue contents (the finite list
of events that will be dequeued) and of the hosted application coroutine's
behavior.  The coroutine is abstracted by what its successive `send` calls
do: continue to the next `yield`, raise `StopIteration`, or raise an
arbitrary exception of type `ε`.  The observable effects are recorded as an
ordered trace of actions. -/

/-- A message on the `ScreenManager` main queue: the keyboard worker enqueues
`KeyPressEvent`s and the SIGWINCH handler enqueues `ResizeEvent`s. -/
inductive Msg where
  | keyPress (key_code : PyStr) (ctrl alt shift : Bool)
  | resize (new_width new_height : Int)
  deriving DecidableEq, Repr

/-- What one `application_coroutine.send(...)` call does. -/
inductive SendResult (ε : Type) where
  | cont
  | stopIteration
  | exc (e : ε)

/-- How the `try` block of `run_app` ends: the `break` on the force-quit
key, `StopIteration` (normal completion), some other exception, or the queue
running dry (in the source, `get()` then blocks forever). -/
inductive LoopExit (ε : Type) where
  | forceQuit
  | stopped
  | raised (e : ε)
  | starved
  deriving DecidableEq

/-- An observable action of `run_app`, in program order. -/
inductive Action where
  | setup
  | sendToApp (msg : Option Msg)
  | setScreenSize (w h : Int)
  | teardown
  deriving DecidableEq, Repr

/-- The `while True` loop of `run_app` from `screen.py`.  `i` is the index
of the next `send` in the coroutine behavior `co`.  A dequeued
`KeyPressEvent` with `key_code == '\x18'` breaks out before any send; other
key presses are sent to the coroutine; a `ResizeEvent` first triggers
`self.set_size` and is then sent. -/
def runLoop {ε : Type} (co : Nat → SendResult ε) :
    List Msg → Nat → List Action × LoopExit ε
  | [], _ => ([], .starved)
  | msg :: rest, i =>
    match msg with
    | .keyPress kc _ _ _ =>
      if kc = ['\x18'] then
        ([], .forceQuit)
      else
        match co i with
        | .cont =>
          (Action.sendToApp (some msg) :: (runLoop co rest (i + 1)).1,
            (runLoop co rest (i + 1)).2)
        | .stopIteration => ([Action.sendToApp (some msg)], .stopped)
        | .exc e => ([Action.sendToApp (some msg)], .raised e)
    | .resize w h =>
      match co i with
      | .cont =>
        (Action.setScreenSize w h :: Action.sendToApp (some msg) ::
          (runLoop co rest (i + 1)).1, (runLoop co rest (i + 1)).2)
      | .stopIteration =>
        ([Action.setScreenSize w h, Action.sendToApp (some msg)], .stopped)
      | .exc e =>
        ([Action.setScreenSize w h, Action.sendToApp (some msg)], .raised e)

/-- The `try` block of `run_app`: the initial `send(None)` followed by the
event loop. -/
def tryBlock {ε : Type} (co : Nat → SendResult ε) (queue : List Msg) :
    List Action × LoopExit ε :=
  match co 0 with
  | .cont =>
    (Action.sendToApp none :: (runLoop co queue 1).1, (runLoop co queue 1).2)
  | .stopIteration => ([Action.sendToApp none], .stopped)
  | .exc e => ([Action.sendToApp none], .raised e)

/-- How `run_app` returns to its caller. -/
inductive RunOutcome (ε : Type) where
  | returned
  | systemExit
  | raised (e : ε)
  | blocked
  deriving DecidableEq

/-- `ScreenManager.run_app` from `screen.py`: `setup`, the `try` block
(`except StopIteration: err = None`, `except BaseException as e: err = e`),
then unconditionally `teardown`, then `raise SystemExit` when the force-quit
key broke the loop, else re-raise `err` when it is not `None`.  When the
queue runs dry the source blocks inside the `try` forever, so no `teardown`
is recorded and the outcome is `blocked`. -/
def runApp {ε : Type} (co : Nat → SendResult ε) (queue : List Msg) :
    List Action × RunOutcome ε :=
  match (tryBlock co queue).2 with
  | .starved => (Action.setup :: (tryBlock co queue).1, .blocked)
  | .forceQuit =>
    (Action.setup :: (tryBlock co queue).1 ++ [Action.teardown], .systemExit)
  | .stopped =>
    (Action.setup :: (tryBlock co queue).1 ++ [Action.teardown], .returned)
  | .raised e =>
    (Action.setup :: (tryBlock co queue).1 ++ [Action.teardown], .raised e)

/-! ## Concrete inputs used by the claim theorems -/

/-- A two-cell screen row in which every cell has foreground value
`(5, 5, 5)` and background value `(0, 0, 0)`, with each color a distinct
`ScreenColor` object (distinct `oid`s) — exactly the shape
`Application.run_with_screen` produces, since it constructs a fresh
`ScreenColor` for every tixel of every line. -/
def uniformRowFreshColors : List ScreenTixel :=
  [ ⟨['a'], some ⟨1, 5, 5, 5⟩, some ⟨2, 0, 0, 0⟩⟩
  , ⟨['b'], some ⟨3, 5, 5, 5⟩, some ⟨4, 0, 0, 0⟩⟩ ]

/-- A bordered, titled panel with an attached content view. -/
def panelExample : Panel :=
  ⟨⟨0, 0⟩, some ("T".toList), true, some ⟨⟨0, 0⟩, ⟨0, 0⟩⟩⟩

/-- A sample event. -/
def evQ : Event :=
  ⟨"q".toList, false, false, false⟩

/-- A first responder whose `key_press` raises `NoResponderException` (the
default `Responder.key_press` with no next responder does exactly this). -/
def raisingKeyPress : Event → Except NoResponderException Unit :=
  fun ev => Responder.no_responder ev

/-! ## C1 -/

/-- C1 (code bug): on a row whose cells all carry the *same color values*
(foreground `(5,5,5)`, background `(0,0,0)`) but, as always in the rendering
pipeline, *distinct* `ScreenColor` objects, `line_to_terminal_line` emits a
fresh foreground and background SGR pair for **every** cell, not just the
first: `ScreenColor` defines no `__eq__`, so the `fg != fg_color` /
`bg != bg_color` guards compare object identity and never see two cells as
equal.  The claim (one SGR pair per row, none repeated mid-row,
re-emission only on value change) is what the code's own docstring ("the
smallest amount of color information as possible") intends, and the code
contradicts it. -/
theorem c1_line_to_terminal_line_repeats_sgr :
    lineToTerminalLine uniformRowFreshColors 100 =
      ("\x1b[38;2;5;5;5m\x1b[48;2;0;0;0ma\x1b[38;2;5;5;5m\x1b[48;2;0;0;0mb\x1b[0m").toList
    ∧ lineToTerminalLine uniformRowFreshColors 100 ≠
      ("\x1b[38;2;5;5;5m\x1b[48;2;0;0;0mab\x1b[0m").toList := by
  decide

/-! ## C2 -/

/-- C2 counterexample: a bordered, titled panel resized to `80×24` gets a
content view of size `78×22`, not `78×21` — the title costs one row and the
border (with a title present) one more, so the height is `24 − 1 − 1 = 22`. -/
theorem c2_panel_content_not_78x21 :
    ((Panel.set_size panelExample ⟨80, 24⟩).content_view.map View.size) = some ⟨78, 22⟩
    ∧ ((Panel.set_size panelExample ⟨80, 24⟩).content_view.map View.size) ≠ some ⟨78, 21⟩ := by
  decide

/-- C2 (amended): for a `Panel` with `has_border = True`, a non-`None` title
and a content view attached, `set_size(Size(80, 24))` resizes the content
view to exactly `78×22`, and applying `set_size(Size(80, 24))` again leaves
it at exactly `78×22` (re-layout with unchanged dimensions is idempotent). -/
theorem c2_panel_resize_78x22_idempotent :
    ∀ (p : Panel) (cv : View),
      p.has_border = true →
      p.title.isSome = true →
      p.content_view = some cv →
      ((Panel.set_size p ⟨80, 24⟩).content_view.map View.size = some ⟨78, 22⟩)
      ∧ ((Panel.set_size (Panel.set_size p ⟨80, 24⟩) ⟨80, 24⟩).content_view.map View.size
          = some ⟨78, 22⟩) := by
  intro p cv hb ht hcv
  simp [Panel.set_size, Panel.resize_content_view, hcv, hb, ht, View.set_size]

/-- C2 witness: the amended theorem applied to a concrete bordered, titled
panel. -/
theorem c2_resize_witness :
    ((Panel.set_size panelExample ⟨80, 24⟩).content_view.map View.size = some ⟨78, 22⟩)
    ∧ ((Panel.set_size (Panel.set_size panelExample ⟨80, 24⟩) ⟨80, 24⟩).content_view.map View.size
        = some ⟨78, 22⟩) :=
  c2_panel_resize_78x22_idempotent panelExample ⟨⟨0, 0⟩, ⟨0, 0⟩⟩ rfl rfl rfl

/-! ## C3 -/

/-- C3 counterexample: `Panel` does *not* override `no_responder`, so
`Panel.send_event` raises `NoResponderException` — it does not return
normally — both when the first responder's `key_press` raises and when no
first responder is set. -/
theorem c3_panel_send_event_raises :
    Panel.send_event (some raisingKeyPress) evQ = .error ⟨evQ⟩
    ∧ Panel.send_event none evQ = .error ⟨evQ⟩
    ∧ (Except.error ⟨evQ⟩ : Except NoResponderException Unit) ≠ .ok () := by
  refine ⟨rfl, rfl, ?_⟩
  intro h
  exact Except.noConfusion h

/-- C3 (amended): the default `Responder.no_responder` signals the
`NoResponder` condition and `Application` overrides it to swallow the event
silently, but `Panel` inherits the raising default, so `Panel.send_event`
propagates `NoResponderException` both when its first responder's
`key_press` raises it and when no first responder is set. -/
theorem c3_no_responder_behavior :
    ∀ (ev : Event),
      Responder.no_responder ev = .error ⟨ev⟩
      ∧ Application.no_responder ev = .ok ()
      ∧ Panel.send_event none ev = .error ⟨ev⟩
      ∧ ∀ (kp : Event → Except NoResponderException Unit) (e : NoResponderException),
          kp ev = .error e → Panel.send_event (some kp) ev = .error ⟨ev⟩ := by
  intro ev
  refine ⟨rfl, rfl, rfl, ?_⟩
  intro kp e h
  simp [Panel.send_event, h, Panel.no_responder, Responder.no_responder]

/-- C3 witness: the amended theorem applied to a concrete event and a
concrete raising first responder. -/
theorem c3_behavior_witness :
    Panel.send_event (some raisingKeyPress) evQ = .error ⟨evQ⟩ :=
  (c3_no_responder_behavior evQ).2.2.2 raisingKeyPress ⟨evQ⟩ rfl

/-! ## C8 -/

/-- C8: `getch` decodes `"\x1b[A"` to key code `"Up"` with no modifiers, and
`"\x1b[1;5A"` (5-byte CSI Ctrl-modifier plus suffix) to `"Up"` with
`ctrl = True`, `alt = False`, `shift = False`. -/
theorem c8_getch_decodes_up :
    getch ("\x1b[A".toList) = ⟨"Up".toList, false, false, false⟩
    ∧ getch ("\x1b[1;5A".toList) = ⟨"Up".toList, true, false, false⟩ := by
  decide

/-! ## C10 -/

/-- C10: the `Tixel` constructor always stores a character of length exactly
one — the first character of `ch` when `ch` is non-empty, and a space when
`ch` is empty. -/
theorem c10_tixel_single_glyph :
    ∀ (ch : PyStr) (fg bg : Option Color),
      (Tixel.make ch fg bg).character.length = 1
      ∧ (∀ (c : Char) (rest : PyStr), ch = c :: rest → (Tixel.make ch fg bg).character = [c])
      ∧ (ch = [] → (Tixel.make ch fg bg).character = [' ']) := by
  intro ch fg bg
  refine ⟨?_, ?_, ?_⟩
  · cases ch <;> simp [Tixel.make]
  · intro c rest h
    subst h
    simp [Tixel.make]
  · intro h
    subst h
    simp [Tixel.make]

/-- C10 witness: the constructor truncates a two-character string and
replaces an empty one with a space. -/
theorem c10_tixel_witness :
    (Tixel.make ['x', 'y'] none none).character = ['x']
    ∧ (Tixel.make [] none none).character = [' '] :=
  ⟨(c10_tixel_single_glyph ['x', 'y'] none none).2.1 'x' ['y'] rfl,
    (c10_tixel_single_glyph [] none none).2.2 rfl⟩

/-! ## C9 -/

/-- C9: a read that yields exactly one character is returned verbatim with
`ctrl = alt = shift = False` (so a raw control byte such as `'\x03'` is
delivered with `ctrl = False`), and a modifier flag can be set only by the
5-byte CSI modifier path: whenever any flag of `getch s` is set, `s` is not
a single character, is not itself a known escape sequence, and both the
`MODIFIERS` lookup of `s[:5]` and the `ESCAPE_SEQUENCES` lookup of
`'\x1b[' + s[5:]` succeed and determine the result. -/
theorem c9_getch_single_char :
    (∀ (c : Char), getch [c] = ⟨[c], false, false, false⟩)
    ∧ ∀ (s : PyStr),
        ((getch s).ctrl || (getch s).alt || (getch s).shift) = true →
        s.length ≠ 1
        ∧ escapeSequences.lookup s = none
        ∧ ∃ (mods : List PyStr) (ch : PyStr),
            modifiersTable.lookup (s.take 5) = some mods
            ∧ escapeSequences.lookup ("\x1b[".toList ++ s.drop 5) = some ch
            ∧ getch s = ⟨ch, mods.contains ("Ctrl".toList), mods.contains ("Alt".toList),
                mods.contains ("Shift".toList)⟩ := by
  constructor
  · intro c
    simp [getch]
  · intro s h
    unfold getch at h
    split at h
    · simp at h
    · rename_i hlen
      split at h
      · simp at h
      · rename_i h1
        split at h
        · rename_i mods ch h2 h3
          refine ⟨hlen, h1, mods, ch, h2, h3, ?_⟩
          simp only [getch, if_neg hlen, h1, h2, h3]
        · simp at h
        · simp at h

/-- C9 witness: `getch` on the single control byte `'\x03'` (Ctrl+C) returns
it verbatim with all flags `False`, and `"\x1b[1;5A"` (whose decode sets
`ctrl`) is not a one-character read. -/
theorem c9_getch_witness :
    getch ['\x03'] = ⟨['\x03'], false, false, false⟩
    ∧ ("\x1b[1;5A".toList : PyStr).length ≠ 1 :=
  ⟨c9_getch_single_char.1 '\x03',
    (c9_getch_single_char.2 ("\x1b[1;5A".toList) (by decide)).1⟩

/-! ## C7 -/

/-- `fit_to_height` returns exactly `height` lines (view heights are
non-negative). -/
theorem length_fitToHeight (lines : List (List Tixel)) (h : Int) (hh : 0 ≤ h) :
    (fitToHeight lines h).length = h.toNat := by
  unfold fitToHeight
  split
  · rename_i hlt
    simp only [List.length_append, List.length_replicate]
    omega
  · rename_i hge
    simp only [List.length_take]
    omega

/-- `fit_to_width` returns exactly `width` tixels (view widths are
non-negative). -/
theorem length_fitToWidth (line : List Tixel) (w : Int) (hw : 0 ≤ w) :
    (fitToWidth line w).length = w.toNat := by
  unfold fitToWidth
  split
  · rename_i hlt
    simp only [List.length_append, List.length_replicate]
    omega
  · rename_i hge
    simp only [List.length_take]
    omega

/-- `fit_to_size` returns exactly `size.height` rows of exactly `size.width`
tixels. -/
theorem fitToSize_dims (lines : List (List Tixel)) (s : Size)
    (hw : 0 ≤ s.width) (hh : 0 ≤ s.height) :
    (fitToSize lines s).length = s.height.toNat
    ∧ ∀ row ∈ fitToSize lines s, row.length = s.width.toNat := by
  constructor
  · simp [fitToSize, length_fitToHeight _ _ hh]
  · intro row hr
    simp only [fitToSize, List.mem_map] at hr
    obtain ⟨l, _, rfl⟩ := hr
    exact length_fitToWidth _ _ hw

/-- C7: for any view whose size was set through `set_size` (which clamps
both dimensions non-negative), `draw()` returns exactly `height` rows of
exactly `width` tixels — for the base `View`, for `FillView` with any fill
character, and for `EmptyView`, at every origin value. -/
theorem c7_draw_dimensions :
    ∀ (v : View) (s : Size) (fill_character : PyStr),
      ((View.draw (View.set_size v s)).length = (View.set_size v s).size.height.toNat
        ∧ ∀ row ∈ View.draw (View.set_size v s),
            row.length = (View.set_size v s).size.width.toNat)
      ∧ ((FillView.draw (View.set_size v s) fill_character).length
            = (View.set_size v s).size.height.toNat
        ∧ ∀ row ∈ FillView.draw (View.set_size v s) fill_character,
            row.length = (View.set_size v s).size.width.toNat)
      ∧ ((EmptyView.draw (View.set_size v s)).length = (View.set_size v s).size.height.toNat
        ∧ ∀ row ∈ EmptyView.draw (View.set_size v s),
            row.length = (View.set_size v s).size.width.toNat) := by
  intro v s fill_character
  have hw : 0 ≤ (View.set_size v s).size.width := le_max_right _ _
  have hh : 0 ≤ (View.set_size v s).size.height := le_max_right _ _
  refine ⟨?_, ⟨?_, ?_⟩, ?_⟩
  · exact fitToSize_dims [] _ hw hh
  · simp [FillView.draw]
  · intro row hr
    simp only [FillView.draw, List.mem_replicate] at hr
    simp [hr.2]
  · exact fitToSize_dims _ _ hw hh

/-- C7 witness: the dimensions theorem applied to a concrete `FillView` of
size `2×1`, with the row-membership hypothesis discharged by evaluation. -/
theorem c7_dims_witness :
    (List.replicate 2 (Tixel.make ['z'] (some White) (some Black))).length
      = (View.set_size ⟨⟨0, 0⟩, ⟨0, 0⟩⟩ ⟨2, 1⟩).size.width.toNat :=
  (c7_draw_dimensions ⟨⟨0, 0⟩, ⟨0, 0⟩⟩ ⟨2, 1⟩ ['z']).2.1.2 _ (by decide)

/-! ## C5 -/

/-- C5 counterexample: for a one-row frame whose terminal line is `"ab"`, the
`write_cmd` emitted by `ScreenManager.draw` is `"\x1b[1;0Hab"` — the cursor
is addressed with **column parameter 0** (`'\x1b[{y};0H'`), not column
parameter 1 as the claim states. -/
theorem c5_write_cmd_column_zero :
    drawWriteCmd [['a', 'b']] = ("\x1b[1;0Hab").toList
    ∧ drawWriteCmd [['a', 'b']] ≠ ("\x1b[1;1Hab").toList := by
  decide

/-- Every row's chunk of the `write_cmd` built by `drawWriteCmdGo`, with the
`enumerate` index starting at `k`. -/
theorem drawWriteCmdGo_row (lines : List PyStr) :
    ∀ (k y : Nat) (h : y < lines.length),
      ∃ s t, drawWriteCmdGo k lines =
        s ++ ("\x1b[".toList ++ natStr (k + y + 1) ++ ";0H".toList)
          ++ lines.get ⟨y, h⟩ ++ t := by
  induction lines with
  | nil =>
    intro k y h
    simp at h
  | cons l rest ih =>
    intro k y h
    cases y with
    | zero =>
      refine ⟨[], drawWriteCmdGo (k + 1) rest, ?_⟩
      simp [drawWriteCmdGo, List.append_assoc]
    | succ y' =>
      obtain ⟨s, t, hst⟩ := ih (k + 1) y' (by simpa using h)
      refine ⟨"\x1b[".toList ++ natStr (k + 1) ++ ";0H".toList ++ l ++ s, t, ?_⟩
      have harith : k + 1 + y' + 1 = k + (y' + 1) + 1 := by omega
      rw [harith] at hst
      simp only [drawWriteCmdGo, hst, List.append_assoc, List.get_cons_succ]

/-- C5 (amended): `ScreenManager.draw` addresses each output row by
positioning the cursor at the row's start — for the 0-based row `y` the
emitted row chunk starts with `ESC [ {y+1} ; 0 H`, i.e. a 1-indexed row
parameter but **column parameter 0** (which terminals treat like column 1),
followed by the row's terminal line. -/
theorem c5_row_addressing :
    ∀ (new_terminal_lines : List PyStr) (y : Nat) (h : y < new_terminal_lines.length),
      ∃ s t, drawWriteCmd new_terminal_lines =
        s ++ ("\x1b[".toList ++ natStr (y + 1) ++ ";0H".toList)
          ++ new_terminal_lines.get ⟨y, h⟩ ++ t := by
  intro lines y h
  have := drawWriteCmdGo_row lines 0 y h
  simpa [drawWriteCmd] using this

/-- C5 witness: the amended theorem applied to the concrete one-row frame. -/
theorem c5_row_witness :
    ∃ s t, drawWriteCmd [['a', 'b']] =
      s ++ ("\x1b[".toList ++ natStr (0 + 1) ++ ";0H".toList)
        ++ (List.get [['a', 'b']] ⟨0, by decide⟩) ++ t :=
  c5_row_addressing [['a', 'b']] 0 (by decide)

/-! ## C4 -/

/-- C4: when the application coroutine raises an exception `e` during the
event loop (the `try` block of `run_app` ends with `raised e`), `run_app`
performs `teardown` as its final observable action before control returns,
and then re-raises the identical exception `e` to its caller. -/
theorem c4_teardown_then_reraise :
    ∀ {ε : Type} (co : Nat → SendResult ε) (queue : List Msg) (e : ε),
      (tryBlock co queue).2 = .raised e →
      (runApp co queue).2 = .raised e
      ∧ (runApp co queue).1.getLast? = some .teardown := by
  intro ε co queue e h
  unfold runApp
  rw [h]
  refine ⟨rfl, ?_⟩
  exact List.getLast?_concat _

/-- C4 witness: a coroutine that raises `7` on its very first resumption:
the run re-raises `7` after recording `teardown` last. -/
theorem c4_reraise_witness :
    (tryBlock (fun _ => SendResult.exc (7 : Nat)) ([] : List Msg)).2 = .raised 7
    ∧ (runApp (fun _ => SendResult.exc (7 : Nat)) ([] : List Msg)).2 = .raised 7
    ∧ (runApp (fun _ => SendResult.exc (7 : Nat)) ([] : List Msg)).1.getLast?
        = some .teardown := by
  refine ⟨rfl, ?_, ?_⟩
  · exact (c4_teardown_then_reraise (fun _ => SendResult.exc (7 : Nat)) [] 7 rfl).1
  · exact (c4_teardown_then_reraise (fun _ => SendResult.exc (7 : Nat)) [] 7 rfl).2

/-! ## C6 -/

/-- Splitting the event loop at a point where the queue ran dry: if the loop
consumed `pre` entirely while waiting for more events, then on `pre ++ q` it
processes `pre` the same way and continues into `q` (having consumed one
coroutine send per message of `pre`). -/
theorem runLoop_starved_append {ε : Type} (co : Nat → SendResult ε) :
    ∀ (pre : List Msg) (i : Nat), (runLoop co pre i).2 = .starved →
      ∀ (q : List Msg),
        runLoop co (pre ++ q) i =
          ((runLoop co pre i).1 ++ (runLoop co q (i + pre.length)).1,
            (runLoop co q (i + pre.length)).2) := by
  intro pre
  induction pre with
  | nil =>
    intro i _ q
    simp [runLoop]
  | cons m rest ih =>
    intro i hst q
    have harith : i + 1 + rest.length = i + (rest.length + 1) := by omega
    cases m with
    | keyPress kc c a s =>
      by_cases hkc : kc = ['\x18']
      · exfalso
        simp [runLoop, hkc] at hst
      · cases hco : co i with
        | cont =>
          have h2 : (runLoop co rest (i + 1)).2 = .starved := by
            simp only [runLoop, if_neg hkc, hco] at hst
            exact hst
          simp only [List.cons_append, runLoop, if_neg hkc, hco, List.length_cons,
            harith, List.append_eq, ih (i + 1) h2 q]
        | stopIteration =>
          simp only [runLoop, if_neg hkc, hco] at hst
          exact absurd hst (by simp)
        | exc e =>
          simp only [runLoop, if_neg hkc, hco] at hst
          exact absurd hst (by simp)
    | resize w h =>
      cases hco : co i with
      | cont =>
        have h2 : (runLoop co rest (i + 1)).2 = .starved := by
          simp only [runLoop, hco] at hst
          exact hst
        simp only [List.cons_append, runLoop, hco, List.length_cons,
          harith, List.append_eq, ih (i + 1) h2 q]
      | stopIteration =>
        simp only [runLoop, hco] at hst
        exact absurd hst (by simp)
      | exc e =>
        simp only [runLoop, hco] at hst
        exact absurd hst (by simp)

/-- The event loop never sends a `'\x18'` key press to the application
coroutine: the force-quit check precedes the `send`. -/
theorem runLoop_never_sends_force_quit {ε : Type} (co : Nat → SendResult ε) :
    ∀ (queue : List Msg) (i : Nat) (c a s : Bool),
      Action.sendToApp (some (Msg.keyPress ['\x18'] c a s)) ∉ (runLoop co queue i).1 := by
  intro queue
  induction queue with
  | nil =>
    intro i c a s
    simp [runLoop]
  | cons m rest ih =>
    intro i c a s
    cases m with
    | keyPress kc c' a' s' =>
      by_cases hkc : kc = ['\x18']
      · simp [runLoop, hkc]
      · have hkc2 : ¬(['\x18'] : PyStr) = kc := fun h => hkc h.symm
        cases hco : co i <;>
          simp [runLoop, if_neg hkc, hco, ih, hkc2]
    | resize w h =>
      cases hco : co i <;> simp [runLoop, hco, ih]

/-- C6: when the scheduler loop dequeues a `KeyPressEvent` with key code
`'\x18'` (Ctrl+X) — i.e. the loop, having consumed the earlier queue entries
`pre` without exiting, reaches that event — the run terminates with
`SystemExit` (distinct from the `raised` error outcome), `teardown` is still
the final action before control returns, and no `'\x18'` key press (with any
modifier flags) is ever sent to the application coroutine. -/
theorem c6_force_quit :
    ∀ {ε : Type} (co : Nat → SendResult ε) (pre rest : List Msg) (c a s : Bool),
      (tryBlock co pre).2 = .starved →
      ((runApp co (pre ++ Msg.keyPress ['\x18'] c a s :: rest)).2 = .systemExit
      ∧ (runApp co (pre ++ Msg.keyPress ['\x18'] c a s :: rest)).1.getLast?
          = some .teardown
      ∧ ∀ (c' a' s' : Bool),
          Action.sendToApp (some (Msg.keyPress ['\x18'] c' a' s'))
            ∉ (runApp co (pre ++ Msg.keyPress ['\x18'] c a s :: rest)).1) := by
  intro ε co pre rest c a s h
  unfold tryBlock at h
  cases hco0 : co 0 with
  | cont =>
    rw [hco0] at h
    have hpre : (runLoop co pre 1).2 = .starved := h
    have hsplit := runLoop_starved_append co pre 1 hpre (Msg.keyPress ['\x18'] c a s :: rest)
    have hfq : runLoop co (Msg.keyPress ['\x18'] c a s :: rest) (1 + pre.length)
        = ([], .forceQuit) := by
      simp [runLoop]
    have htb : tryBlock co (pre ++ Msg.keyPress ['\x18'] c a s :: rest)
        = (Action.sendToApp none :: ((runLoop co pre 1).1 ++ []), .forceQuit) := by
      unfold tryBlock
      rw [hco0, hsplit, hfq]
    refine ⟨?_, ?_, ?_⟩
    · unfold runApp
      rw [htb]
    · unfold runApp
      rw [htb]
      exact List.getLast?_concat _
    · intro c' a' s'
      unfold runApp
      rw [htb]
      have hns := runLoop_never_sends_force_quit co pre 1 c' a' s'
      simp [List.mem_append, List.mem_cons, hns]
  | stopIteration =>
    rw [hco0] at h
    exact absurd h (by simp)
  | exc e =>
    rw [hco0] at h
    exact absurd h (by simp)

/-- C6 witness: a queue holding just the force-quit key press, with a
coroutine that always continues: the run exits via `SystemExit`. -/
theorem c6_force_quit_witness :
    (tryBlock (fun _ => (SendResult.cont : SendResult Nat)) ([] : List Msg)).2 = .starved
    ∧ (runApp (fun _ => (SendResult.cont : SendResult Nat))
        [Msg.keyPress ['\x18'] false false false]).2 = .systemExit := by
  refine ⟨rfl, ?_⟩
  have h := c6_force_quit (fun _ => (SendResult.cont : SendResult Nat)) [] []
    false false false rfl
  simpa using h.1

end RetroUI
